import Mathlib

/-!
Verification of the Clamio frontend notification and alerting pipeline.

The development shallowly embeds the relevant source modules:
* `src/lib/vendorErrorTracker.ts` (error classifier, tracked API calls),
* `src/lib/vendorErrorTracker.ts` part 2 / pushNotifications (subscription manager),
* `src/lib/simpleNotificationService.ts` (fallback notifier),
* the notification dialog component (triage presenter).

Pure functions of the source become Lean functions; stateful code becomes
explicit state passing over small state structures with a trace of the
external API calls that were issued.
-/

namespace Clamio

/-! ## JavaScript string helpers

`strIncludes s pat` models `s.includes(pat)` on JavaScript strings, and
`String.toLower` models `s.toLowerCase()` (the source only ever passes
ASCII data to it). -/

/-- Model of testing that one character list starts with another. -/
def startsWithChars : List Char → List Char → Bool
  | [], _ => true
  | _ :: _, [] => false
  | p :: ps, c :: cs => p = c && startsWithChars ps cs

/-- Model of substring search: does `pat` occur contiguously in the list? -/
def containsChars (pat : List Char) : List Char → Bool
  | [] => startsWithChars pat []
  | c :: cs => startsWithChars pat (c :: cs) || containsChars pat cs

/-- Model of `s.includes(pat)` from JavaScript. -/
def strIncludes (s pat : String) : Bool :=
  containsChars pat.data s.data

/-! ## ErrorClassifier: data model (src/lib/vendorErrorTracker.ts) -/

/-- Model of the TypeScript union `string | number` used for error codes. -/
inductive ErrCode where
  | str (s : String)
  | num (n : Int)
deriving DecidableEq, Repr

/-- Embedding of the `TrackedError` interface of vendorErrorTracker.ts. -/
structure TrackedError where
  type : String
  code : Option ErrCode := none
  message : String
  stack : Option String := none
deriving DecidableEq, Repr

/-- Embedding of the `ErrorContext` interface of vendorErrorTracker.ts. -/
structure ErrorContext where
  component : Option String := none
  action : Option String := none
  orderId : Option String := none
  orderIds : Option (List String) := none
  endpoint : Option String := none
  method : Option String := none
  statusCode : Option Int := none
  retryCount : Option Int := none
  userAgent : Option String := none
  url : Option String := none
deriving DecidableEq, Repr

/-! ## ErrorClassifier: severity assignment (`getSeverity`) -/

/-- The `criticalOperations` list of `getSeverity`. -/
def criticalOperations : List String :=
  ["claim_order", "bulk_claim_orders", "reverse_order", "bulk_reverse_orders"]

/-- The `highSeverityOperations` list of `getSeverity`. -/
def highSeverityOperations : List String :=
  ["mark_ready", "bulk_mark_ready", "download_label", "bulk_download_labels"]

/-- The `criticalErrorTypes` list of `getSeverity`. -/
def criticalErrorTypes : List String :=
  ["NETWORK_ERROR", "TIMEOUT_ERROR", "AUTHENTICATION_ERROR", "PERMISSION_ERROR"]

/-- The `highErrorTypes` list of `getSeverity`. -/
def highErrorTypes : List String :=
  ["VALIDATION_ERROR", "FILE_ERROR", "DATA_ERROR"]

/-- Embedding of `VendorErrorTracker.getSeverity` (vendorErrorTracker.ts,
lines 311-358): first the two error-type checks, then the two operation
checks, then the lowercased-message keyword checks, else medium. -/
def getSeverity (operation : String) (error : TrackedError) : String :=
  if criticalErrorTypes.contains error.type then "critical"
  else if highErrorTypes.contains error.type then "high"
  else if criticalOperations.contains operation then "critical"
  else if highSeverityOperations.contains operation then "high"
  else
    let errorMessage := error.message.toLower
    if strIncludes errorMessage "critical" || strIncludes errorMessage "fatal" then "critical"
    else if strIncludes errorMessage "failed" || strIncludes errorMessage "error" then "high"
    else "medium"

/-! ## The six severity rules as the specification words them (claim C2)

The specification describes `getSeverity` as six prioritized rules with the
first matching rule winning.  `severitySpecRules` lists the six guards and
results in the spec's order (message containment is evaluated on the
lowercased message, as in the source), and `firstMatchingRule` picks the
first rule whose guard holds, defaulting to medium. -/

/-- The six severity rules written down in the spec's priority order. -/
def severitySpecRules (operation : String) (error : TrackedError) : List (Bool × String) :=
  [ (criticalErrorTypes.contains error.type, "critical"),
    (highErrorTypes.contains error.type, "high"),
    (criticalOperations.contains operation, "critical"),
    (highSeverityOperations.contains operation, "high"),
    (strIncludes error.message.toLower "critical" || strIncludes error.message.toLower "fatal",
      "critical"),
    (strIncludes error.message.toLower "failed" || strIncludes error.message.toLower "error",
      "high") ]

/-- First-match evaluation over an ordered rule list; no rule means medium. -/
def firstMatchingRule : List (Bool × String) → String
  | [] => "medium"
  | (true, r) :: _ => r
  | (false, _) :: rest => firstMatchingRule rest

/-- C2: for every operation, error type and message, `getSeverity` computes
exactly the first-match evaluation of the six spec rules in their stated
priority order. -/
theorem getSeverity_eq_firstMatchingRule (operation : String) (error : TrackedError) :
    getSeverity operation error = firstMatchingRule (severitySpecRules operation error) := by
  unfold getSeverity severitySpecRules
  cases h1 : criticalErrorTypes.contains error.type <;>
    cases h2 : highErrorTypes.contains error.type <;>
      cases h3 : criticalOperations.contains operation <;>
        cases h4 : highSeverityOperations.contains operation <;>
          cases h5 : strIncludes error.message.toLower "critical"
            || strIncludes error.message.toLower "fatal" <;>
            cases h6 : strIncludes error.message.toLower "failed"
              || strIncludes error.message.toLower "error" <;>
              simp [firstMatchingRule, h1, h2, h3, h4, h5, h6]

/-- C10: severity assignment only ever produces medium, high or critical;
in particular it can never produce the bottom enum value low. -/
theorem getSeverity_never_low (operation : String) (error : TrackedError) :
    (getSeverity operation error = "medium" ∨ getSeverity operation error = "high" ∨
      getSeverity operation error = "critical") ∧ getSeverity operation error ≠ "low" := by
  unfold getSeverity
  cases h1 : criticalErrorTypes.contains error.type <;>
    cases h2 : highErrorTypes.contains error.type <;>
      cases h3 : criticalOperations.contains operation <;>
        cases h4 : highSeverityOperations.contains operation <;>
          cases h5 : strIncludes error.message.toLower "critical"
            || strIncludes error.message.toLower "fatal" <;>
            cases h6 : strIncludes error.message.toLower "failed"
              || strIncludes error.message.toLower "error" <;>
              simp [h1, h2, h3, h4, h5, h6]

/-- C10 witness: the severity of a concrete unmatched operation and error is
medium, not low. -/
theorem getSeverity_never_low_witness :
    getSeverity "fetch_orders" { type := "UNKNOWN_ERROR", message := "slow response" }
        ≠ "low" :=
  (getSeverity_never_low "fetch_orders"
    { type := "UNKNOWN_ERROR", message := "slow response" }).2

/-- C1 counterexample: for the critical operation claim_order with a supplied
VALIDATION_ERROR error type, the classifier assigns high, not critical, because
the error-type rules take priority over the operation rules. -/
theorem claim_order_validation_error_is_high :
    getSeverity "claim_order" { type := "VALIDATION_ERROR", message := "input rejected" } = "high"
      ∧ ("high" : String) ≠ "critical" := by
  constructor
  · decide
  · decide

/-- Helper: an error type in the critical list is never in the high list. -/
theorem not_high_of_critical_type (t : String)
    (h : criticalErrorTypes.contains t = true) : highErrorTypes.contains t = false := by
  have hm : t ∈ criticalErrorTypes := by
    simpa using h
  simp only [criticalErrorTypes, List.mem_cons, List.not_mem_nil, or_false] at hm
  rcases hm with h' | h' | h' | h' <;> subst h' <;> decide

/-- C1 amended: for every tracked error whose operation is in the critical
list, the severity is critical unless the supplied or inferred error type is
one of VALIDATION_ERROR, FILE_ERROR, DATA_ERROR, in which case it is high. -/
theorem critical_op_severity (operation : String) (error : TrackedError)
    (hop : criticalOperations.contains operation = true) :
    getSeverity operation error =
      if highErrorTypes.contains error.type then "high" else "critical" := by
  unfold getSeverity
  cases h1 : criticalErrorTypes.contains error.type with
  | true =>
      rw [not_high_of_critical_type error.type h1]
      simp
  | false =>
      cases h2 : highErrorTypes.contains error.type with
      | true => simp
      | false =>
          have hop' : operation ∈ criticalOperations := by simpa using hop
          simp [hop']

/-- C1 amended, witness: the claim_order operation with a plain unknown error
type is classified critical. -/
theorem critical_op_severity_witness :
    getSeverity "claim_order" { type := "UNKNOWN_ERROR", message := "x" } = "critical" := by
  have h := critical_op_severity "claim_order" { type := "UNKNOWN_ERROR", message := "x" }
    (by decide)
  simpa using h

/-! ## SubscriptionManager: VAPID key decoding (`urlBase64ToUint8Array`)

The source converts a URL-safe base64 VAPID key to a byte array by padding
with `=` to a multiple of four characters, replacing `-` by `+` and `_` by
`/`, calling `window.atob`, and reading the character codes of the resulting
binary string.  Bytes are modelled as `Nat` values below 256 and the binary
string returned by `atob` is modelled directly as the list of its character
codes. -/

/-- Value of a character in the standard base64 alphabet (A-Z, a-z, 0-9,
`+`, `/`), as used by `window.atob`; characters outside the alphabet map to
an arbitrary 0 (the source never feeds them to `atob`). -/
def b64Val (c : Char) : Nat :=
  if 65 ≤ c.toNat ∧ c.toNat ≤ 90 then c.toNat - 65
  else if 97 ≤ c.toNat ∧ c.toNat ≤ 122 then c.toNat - 71
  else if 48 ≤ c.toNat ∧ c.toNat ≤ 57 then c.toNat + 4
  else if c.toNat = 43 then 62
  else if c.toNat = 47 then 63
  else 0

/-- Value of a character in the URL-safe base64 alphabet (A-Z, a-z, 0-9,
`-`, `_`), used by the reference decoder. -/
def b64UrlVal (c : Char) : Nat :=
  if 65 ≤ c.toNat ∧ c.toNat ≤ 90 then c.toNat - 65
  else if 97 ≤ c.toNat ∧ c.toNat ≤ 122 then c.toNat - 71
  else if 48 ≤ c.toNat ∧ c.toNat ≤ 57 then c.toNat + 4
  else if c.toNat = 45 then 62
  else if c.toNat = 95 then 63
  else 0

/-- Membership in the URL-safe base64 alphabet. -/
def IsB64UrlChar (c : Char) : Prop :=
  (65 ≤ c.toNat ∧ c.toNat ≤ 90) ∨ (97 ≤ c.toNat ∧ c.toNat ≤ 122) ∨
    (48 ≤ c.toNat ∧ c.toNat ≤ 57) ∨ c.toNat = 45 ∨ c.toNat = 95

instance (c : Char) : Decidable (IsB64UrlChar c) := by
  unfold IsB64UrlChar
  infer_instance

/-- Embedding of the two chained `replace` calls of `urlBase64ToUint8Array`:
`-` becomes `+` and `_` becomes `/`, all other characters are unchanged. -/
def repChar (c : Char) : Char :=
  if c = '-' then '+' else if c = '_' then '/' else c

/-- Model of `window.atob` followed by reading each character code: decodes
standard base64 four characters at a time, honouring trailing `=` padding
(one `=` yields two bytes for the final group, two `=` yield one). -/
def atobBytes : List Char → List Nat
  | c1 :: c2 :: c3 :: c4 :: rest =>
    if c3 = '=' then
      [b64Val c1 * 4 + b64Val c2 / 16]
    else if c4 = '=' then
      [b64Val c1 * 4 + b64Val c2 / 16, b64Val c2 % 16 * 16 + b64Val c3 / 4]
    else
      (b64Val c1 * 4 + b64Val c2 / 16) ::
        (b64Val c2 % 16 * 16 + b64Val c3 / 4) ::
          (b64Val c3 % 4 * 64 + b64Val c4) :: atobBytes rest
  | _ => []

/-- Embedding of the padding computation of `urlBase64ToUint8Array`:
the number of `=` characters appended, `(4 - length % 4) % 4`. -/
def padCount (n : Nat) : Nat := (4 - n % 4) % 4

/-- Embedding of `PushNotificationService.urlBase64ToUint8Array`
(vendorErrorTracker.ts part 2, lines 794-807): pad with `=` to a multiple of
four characters, replace `-` by `+` and `_` by `/`, then base64-decode. -/
def urlBase64ToUint8Array (s : String) : List Nat :=
  atobBytes ((s.data ++ List.replicate (padCount s.data.length) '=').map repChar)

/-- Reference base64url decoder: decodes directly over the URL-safe alphabet
with no padding, an unpadded tail of two characters giving one final byte and
of three characters giving two. -/
def base64urlDecode : List Char → List Nat
  | [c1, c2] => [b64UrlVal c1 * 4 + b64UrlVal c2 / 16]
  | [c1, c2, c3] =>
      [b64UrlVal c1 * 4 + b64UrlVal c2 / 16, b64UrlVal c2 % 16 * 16 + b64UrlVal c3 / 4]
  | c1 :: c2 :: c3 :: c4 :: rest =>
      (b64UrlVal c1 * 4 + b64UrlVal c2 / 16) ::
        (b64UrlVal c2 % 16 * 16 + b64UrlVal c3 / 4) ::
          (b64UrlVal c3 % 4 * 64 + b64UrlVal c4) :: base64urlDecode rest
  | _ => []

/-- Characters are determined by their scalar value. -/
theorem char_eq_of_toNat_eq {c d : Char} (h : c.toNat = d.toNat) : c = d :=
  Char.eq_of_val_eq (UInt32.ext h)

/-- Replacing a URL-safe alphabet character never produces the padding
character. -/
theorem repChar_ne_pad (c : Char) (h : IsB64UrlChar c) : repChar c ≠ '=' := by
  unfold repChar
  split_ifs
  · decide
  · decide
  · intro he
    subst he
    exact absurd h (by decide)

/-- After the `-` and `_` replacement, the standard alphabet value of a
URL-safe character equals its URL-safe alphabet value. -/
theorem b64Val_repChar (c : Char) (h : IsB64UrlChar c) :
    b64Val (repChar c) = b64UrlVal c := by
  by_cases h45 : c.toNat = 45
  · have hc : c = '-' := char_eq_of_toNat_eq (by simpa using h45)
    subst hc
    decide
  by_cases h95 : c.toNat = 95
  · have hc : c = '_' := char_eq_of_toNat_eq (by simpa using h95)
    subst hc
    decide
  have hne1 : c ≠ '-' := by
    intro he
    subst he
    exact h45 rfl
  have hne2 : c ≠ '_' := by
    intro he
    subst he
    exact h95 rfl
  unfold repChar
  rw [if_neg hne1, if_neg hne2]
  unfold b64Val b64UrlVal
  rcases h with h | h | h | h | h
  · rw [if_pos h, if_pos h]
  · have hn : ¬(65 ≤ c.toNat ∧ c.toNat ≤ 90) := by omega
    rw [if_neg hn, if_neg hn, if_pos h, if_pos h]
  · have hn1 : ¬(65 ≤ c.toNat ∧ c.toNat ≤ 90) := by omega
    have hn2 : ¬(97 ≤ c.toNat ∧ c.toNat ≤ 122) := by omega
    rw [if_neg hn1, if_neg hn1, if_neg hn2, if_neg hn2, if_pos h, if_pos h]
  · exact absurd h h45
  · exact absurd h h95

/-- Padding is insensitive to adding a whole base64 group. -/
theorem padCount_add_four (n : Nat) : padCount (n + 4) = padCount n := by
  unfold padCount
  omega

/-- Auxiliary induction: on inputs over the URL-safe alphabet whose length is
not 1 modulo 4, the source's pad-replace-atob pipeline agrees with the
reference base64url decoder. -/
theorem atob_padded_eq_base64urlDecode_aux :
    ∀ (n : Nat) (l : List Char), l.length ≤ n → (∀ c ∈ l, IsB64UrlChar c) →
      l.length % 4 ≠ 1 →
      atobBytes ((l ++ List.replicate (padCount l.length) '=').map repChar) =
        base64urlDecode l := by
  intro n
  induction n with
  | zero =>
      intro l hl _ _
      have hnil : l = [] := List.eq_nil_of_length_eq_zero (Nat.le_zero.mp hl)
      subst hnil
      rfl
  | succ n ih =>
      intro l hl hchars hmod
      match l with
      | [] => rfl
      | [c1] => simp at hmod
      | [c1, c2] =>
          have h1 : IsB64UrlChar c1 := hchars c1 (by simp)
          have h2 : IsB64UrlChar c2 := hchars c2 (by simp)
          have e2 : padCount (List.length [c1, c2]) = 2 := rfl
          rw [e2]
          show atobBytes [repChar c1, repChar c2, repChar '=', repChar '='] =
            base64urlDecode [c1, c2]
          have e4 : repChar '=' = '=' := rfl
          rw [e4]
          simp [atobBytes, base64urlDecode, b64Val_repChar c1 h1, b64Val_repChar c2 h2]
      | [c1, c2, c3] =>
          have h1 : IsB64UrlChar c1 := hchars c1 (by simp)
          have h2 : IsB64UrlChar c2 := hchars c2 (by simp)
          have h3 : IsB64UrlChar c3 := hchars c3 (by simp)
          have e2 : padCount (List.length [c1, c2, c3]) = 1 := rfl
          rw [e2]
          show atobBytes [repChar c1, repChar c2, repChar c3, repChar '='] =
            base64urlDecode [c1, c2, c3]
          have e4 : repChar '=' = '=' := rfl
          rw [e4]
          simp [atobBytes, if_neg (repChar_ne_pad c3 h3), base64urlDecode,
            b64Val_repChar c1 h1, b64Val_repChar c2 h2, b64Val_repChar c3 h3]
      | c1 :: c2 :: c3 :: c4 :: rest =>
          have h1 : IsB64UrlChar c1 := hchars c1 (by simp)
          have h2 : IsB64UrlChar c2 := hchars c2 (by simp)
          have h3 : IsB64UrlChar c3 := hchars c3 (by simp)
          have h4 : IsB64UrlChar c4 := hchars c4 (by simp)
          have hrest : ∀ c ∈ rest, IsB64UrlChar c := by
            intro c hc
            exact hchars c (by simp [hc])
          have hmod' : rest.length % 4 ≠ 1 := by
            simp only [List.length_cons] at hmod
            omega
          have hle' : rest.length ≤ n := by
            simp only [List.length_cons] at hl
            omega
          have hpc : padCount (List.length (c1 :: c2 :: c3 :: c4 :: rest)) =
              padCount rest.length := by
            simp only [List.length_cons]
            unfold padCount
            omega
          rw [hpc]
          show atobBytes (repChar c1 :: repChar c2 :: repChar c3 :: repChar c4 ::
              (rest ++ List.replicate (padCount rest.length) '=').map repChar) =
            base64urlDecode (c1 :: c2 :: c3 :: c4 :: rest)
          rw [atobBytes, if_neg (repChar_ne_pad c3 h3), if_neg (repChar_ne_pad c4 h4)]
          rw [ih rest hle' hrest hmod']
          simp only [base64urlDecode, b64Val_repChar c1 h1, b64Val_repChar c2 h2,
            b64Val_repChar c3 h3, b64Val_repChar c4 h4]

/-- Length of the reference decoding for inputs of length 3 modulo 4. -/
theorem base64urlDecode_length_mod3 :
    ∀ (n : Nat) (l : List Char), l.length ≤ n → l.length % 4 = 3 →
      (base64urlDecode l).length = 3 * (l.length / 4) + 2 := by
  intro n
  induction n with
  | zero =>
      intro l hl hmod
      have hnil : l = [] := List.eq_nil_of_length_eq_zero (Nat.le_zero.mp hl)
      subst hnil
      simp at hmod
  | succ n ih =>
      intro l hl hmod
      match l with
      | [] => simp at hmod
      | [c1] => simp at hmod
      | [c1, c2] => simp at hmod
      | [c1, c2, c3] => simp [base64urlDecode]
      | c1 :: c2 :: c3 :: c4 :: rest =>
          have hmod' : rest.length % 4 = 3 := by
            simp only [List.length_cons] at hmod
            omega
          have hle' : rest.length ≤ n := by
            simp only [List.length_cons] at hl
            omega
          have hrec := ih rest hle' hmod'
          simp only [base64urlDecode, List.length_cons, hrec]
          omega

/-- C5: on every URL-safe base64 input (length not 1 modulo 4), the source's
VAPID key decoding - pad with `=` to a multiple of four, replace `-` by `+`
and `_` by `/`, base64-decode - is byte-identical to the reference base64url
decoding, and an 87-character input (the encoding of a 65-byte uncompressed
P-256 public key) decodes to exactly 65 bytes. -/
theorem urlBase64ToUint8Array_spec (s : String)
    (hchars : ∀ c ∈ s.data, IsB64UrlChar c) (hlen : s.data.length % 4 ≠ 1) :
    urlBase64ToUint8Array s = base64urlDecode s.data ∧
      (s.data.length = 87 → (urlBase64ToUint8Array s).length = 65) := by
  have hagree := atob_padded_eq_base64urlDecode_aux s.data.length s.data le_rfl hchars hlen
  unfold urlBase64ToUint8Array
  refine ⟨hagree, fun h87 => ?_⟩
  rw [hagree, base64urlDecode_length_mod3 s.data.length s.data le_rfl (by omega), h87]

/-- Concrete 87-character URL-safe base64 test key in the format of an
uncompressed P-256 VAPID public key. -/
def vapidTestKey : String :=
  "BK3mXQ9ZfTgy7WqPnL0aRbCdEfGhIjKlMnOpQrStUvWxYz0123456789-_AbCdEfGhIjKlMnOpQrStUvWxYz9Ab"

/-- C5 witness: the decoder agrees with the reference decoding on a concrete
valid P-256 test key and yields exactly 65 bytes. -/
theorem urlBase64ToUint8Array_spec_witness :
    vapidTestKey.data.length = 87 ∧
      urlBase64ToUint8Array vapidTestKey = base64urlDecode vapidTestKey.data ∧
      (urlBase64ToUint8Array vapidTestKey).length = 65 :=
  ⟨by decide,
    (urlBase64ToUint8Array_spec vapidTestKey (by decide) (by decide)).1,
    (urlBase64ToUint8Array_spec vapidTestKey (by decide) (by decide)).2 (by decide)⟩

/-! ## SubscriptionManager: `PushNotificationService.subscribe`

State of the singleton service, plus an environment record carrying the
browser-owned inputs (current permission, the result of a permission
request, whether the browser push manager and the backend accept the
subscription).  `subscribe` returns the thrown-or-returned outcome, the
service state after the call, and the list of backend API calls issued. -/

/-- Browser notification permission. -/
inductive Perm where
  | default
  | granted
  | denied
deriving DecidableEq, Repr

/-- Embedding of the `PushSubscriptionData` browser subscription payload. -/
structure BrowserSub where
  endpoint : String
  p256dh : String
  auth : String
deriving DecidableEq, Repr

/-- Failure outcomes `subscribe` can throw. -/
inductive SubError where
  | notSupported
  | permissionDenied
  | pushManagerError
  | serverRejected
deriving DecidableEq, Repr

/-- Mutable fields of the `PushNotificationService` singleton. -/
structure PushState where
  isSupported : Bool
  vapidPublicKey : Option String
  isSubscribed : Bool
  subscription : Option BrowserSub
deriving DecidableEq, Repr

/-- Browser- and backend-owned inputs consumed during one subscribe call. -/
structure PushEnv where
  currentPermission : Perm
  requestResult : Perm
  pushManagerOk : Bool
  backendOk : Bool
  browserSub : BrowserSub
deriving DecidableEq, Repr

/-- Backend API calls the subscription flow can issue. -/
inductive PushApiCall where
  | subscribePush (d : BrowserSub)
  | unsubscribePush
deriving DecidableEq, Repr

/-- Embedding of `PushNotificationService.subscribe` (vendorErrorTracker.ts
part 2, lines 568-625).  Unsupported browsers throw immediately; with no
VAPID key the call succeeds permission-only (setting `isSubscribed` but
issuing no backend call) or throws on a denied permission without touching
state; with a VAPID key any failure inside the try block is caught, resets
`isSubscribed` and `subscription`, and rethrows. -/
def pushSubscribe (st : PushState) (env : PushEnv) :
    Except SubError Bool × PushState × List PushApiCall :=
  if ¬ st.isSupported then (.error .notSupported, st, [])
  else
    match st.vapidPublicKey with
    | none =>
        if env.requestResult = .granted then
          (.ok true, { st with isSubscribed := true }, [])
        else (.error .permissionDenied, st, [])
    | some _ =>
        if env.requestResult ≠ .granted then
          (.error .permissionDenied, { st with isSubscribed := false, subscription := none }, [])
        else if ¬ env.pushManagerOk then
          (.error .pushManagerError, { st with isSubscribed := false, subscription := none }, [])
        else if env.backendOk then
          (.ok true, { st with isSubscribed := true, subscription := some env.browserSub },
            [.subscribePush env.browserSub])
        else
          (.error .serverRejected, { st with isSubscribed := false, subscription := none },
            [.subscribePush env.browserSub])

/-! ## FallbackNotifier: `SimpleNotificationService`
(src/lib/simpleNotificationService.ts) -/

/-- Mutable fields of the `SimpleNotificationService` singleton. -/
structure SimpleState where
  isSupported : Bool
  isEnabled : Bool
deriving DecidableEq, Repr

/-- Embedding of `SimpleNotificationService.requestPermission` (lines 37-46):
unsupported browsers report denied without touching the flag; otherwise the
enabled flag tracks whether the request came back granted. -/
def simpleRequestPermission (st : SimpleState) (env : PushEnv) : Perm × SimpleState :=
  if ¬ st.isSupported then (.denied, st)
  else (env.requestResult, { st with isEnabled := env.requestResult = .granted })

/-- Embedding of `SimpleNotificationService.enable` (lines 129-133). -/
def simpleEnable (st : SimpleState) (env : PushEnv) : Bool × SimpleState :=
  let p := (simpleRequestPermission st env).1
  let st1 := (simpleRequestPermission st env).2
  let st2 := { st1 with isEnabled := p = .granted }
  (st2.isEnabled, st2)

/-- Embedding of `SimpleNotificationService.disable` (lines 138-140). -/
def simpleDisable (st : SimpleState) : SimpleState :=
  { st with isEnabled := false }

/-- Embedding of the `SimpleNotification` payload. -/
structure SimpleNotification where
  title : String
  body : String
  tag : Option String := none
deriving DecidableEq, Repr

/-- What happens when a displayed alert is clicked. -/
inductive ClickAction where
  | focusWindow
  | closeAlert
deriving DecidableEq, Repr

/-- A displayed local alert together with its auto-dismiss delay and click
behaviour. -/
structure DisplayedAlert where
  title : String
  body : String
  autoCloseDelayMs : Nat
  onClick : List ClickAction
deriving DecidableEq, Repr

/-- Embedding of `SimpleNotificationService.showNotification` (lines 59-87).
The source guards only on `isSupported` and `isEnabled` (the current browser
permission, passed here as `perm`, is not consulted at show time); when it
displays, the alert auto-closes after a fixed 5000 ms and its click handler
focuses the window and closes the alert. -/
def showNotification (st : SimpleState) (perm : Perm) (n : SimpleNotification) :
    Option DisplayedAlert :=
  if ¬ st.isSupported ∨ ¬ st.isEnabled then none
  else
    some { title := n.title, body := n.body, autoCloseDelayMs := 5000,
           onClick := [.focusWindow, .closeAlert] }

/-! ## The dialog's subscribe handler (`handlePushSubscribe`)

The notification dialog component composes the two services: it first tries
`pushNotificationService.subscribe()` and, only when that throws, falls back
to `simpleNotificationService.enable()`.  The handler's optimistic toggle
state (`pushSubscribed`, `pushEnabled`) and the toast it raises are part of
the world. -/

/-- Outcome surfaced to the operator by a handler. -/
inductive ToastKind where
  | success
  | failure
deriving DecidableEq, Repr

/-- The dialog's optimistic toggle state mirroring the subscription. -/
structure UiState where
  pushEnabled : Bool
  pushSubscribed : Bool
deriving DecidableEq, Repr

/-- Combined world the subscribe handler acts on. -/
structure World where
  push : PushState
  simple : SimpleState
  ui : UiState
  calls : List PushApiCall
  toast : Option ToastKind
deriving DecidableEq, Repr

/-- Embedding of `handlePushSubscribe` (notification dialog component,
lines 204-279).  The support probe of the handler is the same
`Notification in window` check as `SimpleNotificationService.checkSupport`,
so it is read from `w.simple.isSupported`.  On any surfaced error the outer
catch rolls both toggles back to false before showing the error toast. -/
def handlePushSubscribe (w : World) (env : PushEnv) : World :=
  if ¬ w.simple.isSupported then
    { w with ui := { pushEnabled := false, pushSubscribed := false }, toast := some .failure }
  else if env.currentPermission = .denied then
    { w with ui := { pushEnabled := false, pushSubscribed := false }, toast := some .failure }
  else
    match pushSubscribe w.push env with
    | (.ok success, push1, cs) =>
        if success then
          { w with push := push1, calls := w.calls ++ cs,
                   ui := { pushEnabled := true, pushSubscribed := true },
                   toast := some .success }
        else
          { w with push := push1, calls := w.calls ++ cs }
    | (.error _, push1, cs) =>
        let enabled := (simpleEnable w.simple env).1
        let simple1 := (simpleEnable w.simple env).2
        if enabled then
          { w with push := push1, simple := simple1, calls := w.calls ++ cs,
                   ui := { pushEnabled := true, pushSubscribed := true },
                   toast := some .success }
        else
          { w with push := push1, simple := simple1, calls := w.calls ++ cs,
                   ui := { pushEnabled := false, pushSubscribed := false },
                   toast := some .failure }

/-! ## Claims C8, C6, C4 -/

/-- C8 counterexample: with the local enabled flag still set but the browser
permission no longer granted (revoked after enabling), the fallback notifier
still displays the alert - the show guard never consults the current
permission, refuting that a display implies permission is granted. -/
theorem showNotification_displays_without_granted_permission :
    (showNotification { isSupported := true, isEnabled := true } Perm.denied
        { title := "t", body := "b" }).isSome = true ∧ Perm.denied ≠ Perm.granted := by
  constructor
  · rfl
  · decide

/-- C8 amended: the fallback notifier displays exactly when the service is
supported and the local enabled flag is true (the current browser permission
is not re-checked at show time; the flag can only have been set by a granted
permission request), and every displayed alert auto-dismisses after the fixed
5000 ms delay and on click focuses the application window and closes. -/
theorem showNotification_spec (st : SimpleState) (perm : Perm) (n : SimpleNotification) :
    ((showNotification st perm n).isSome ↔ st.isSupported = true ∧ st.isEnabled = true) ∧
      (∀ d, showNotification st perm n = some d →
        d.autoCloseDelayMs = 5000 ∧ d.onClick = [.focusWindow, .closeAlert]) := by
  constructor
  · unfold showNotification
    cases hs : st.isSupported <;> cases he : st.isEnabled <;> simp [hs, he]
  · intro d hd
    by_cases h : ¬ st.isSupported ∨ ¬ st.isEnabled
    · rw [showNotification, if_pos h] at hd
      cases hd
    · rw [showNotification, if_neg h] at hd
      injection hd with hd
      subst hd
      exact ⟨rfl, rfl⟩

/-- C8 witness: a supported, enabled service with granted permission displays
the alert with the 5-second auto-dismiss and the focus-on-click handler. -/
theorem showNotification_spec_witness :
    showNotification { isSupported := true, isEnabled := true } Perm.granted
        { title := "t", body := "b" } =
      some { title := "t", body := "b", autoCloseDelayMs := 5000,
             onClick := [.focusWindow, .closeAlert] } ∧
    ({ title := "t", body := "b", autoCloseDelayMs := 5000,
       onClick := [ClickAction.focusWindow, ClickAction.closeAlert] } :
        DisplayedAlert).autoCloseDelayMs = 5000 := by
  refine ⟨rfl, ?_⟩
  exact ((showNotification_spec { isSupported := true, isEnabled := true } Perm.granted
    { title := "t", body := "b" }).2 _ rfl).1

/-- `subscribe` never resolves to false: every path either returns true or
throws. -/
theorem pushSubscribe_ne_ok_false (st : PushState) (env : PushEnv) :
    (pushSubscribe st env).1 ≠ .ok false := by
  rcases hv : st.vapidPublicKey with _ | k <;>
    · unfold pushSubscribe
      rw [hv]
      split_ifs <;> simp

/-- C6 counterexample: with no VAPID key configured and a previously
established permission-only subscription, a permission-denied failure of
subscribe leaves isSubscribed true - the manager does not revert to the
known non-subscribed state. -/
theorem subscribe_failure_keeps_stale_subscribed :
    (pushSubscribe
        { isSupported := true, vapidPublicKey := none, isSubscribed := true,
          subscription := none }
        { currentPermission := .denied, requestResult := .denied, pushManagerOk := true,
          backendOk := true,
          browserSub := { endpoint := "e", p256dh := "p", auth := "a" } }).1
      = .error .permissionDenied ∧
    (pushSubscribe
        { isSupported := true, vapidPublicKey := none, isSubscribed := true,
          subscription := none }
        { currentPermission := .denied, requestResult := .denied, pushManagerOk := true,
          backendOk := true,
          browserSub := { endpoint := "e", p256dh := "p", auth := "a" } }).2.1.isSubscribed
      = true := by
  constructor <;> rfl

/-- C6 amended: when subscribe fails on a supported browser with a VAPID key
configured, the manager reverts to the known non-subscribed state
(isSubscribed false, subscription null) before rethrowing; in the unsupported
and no-VAPID paths a failure leaves the manager state unchanged, so a stale
isSubscribed can persist there; and whenever the dialog's enable flow
surfaces an error, both optimistic toggles are rolled back to false. -/
theorem subscribe_failure_rollback (st : PushState) (env : PushEnv) (w : World) (e : SubError)
    (hfail : (pushSubscribe st env).1 = .error e) :
    (st.isSupported = true → st.vapidPublicKey.isSome →
      (pushSubscribe st env).2.1.isSubscribed = false ∧
        (pushSubscribe st env).2.1.subscription = none) ∧
    (st.isSupported = false ∨ st.vapidPublicKey = none → (pushSubscribe st env).2.1 = st) ∧
    ((handlePushSubscribe w env).toast = some .failure →
      (handlePushSubscribe w env).ui = { pushEnabled := false, pushSubscribed := false }) := by
  refine ⟨?_, ?_, ?_⟩
  · intro hsup hv
    rcases hvk : st.vapidPublicKey with _ | k
    · rw [hvk] at hv
      cases hv
    · unfold pushSubscribe at *
      rw [hvk] at hfail ⊢
      rw [hsup] at hfail ⊢
      split_ifs at hfail ⊢ <;> simp_all
  · intro hcase
    rcases hcase with hsup | hv
    · unfold pushSubscribe at *
      rw [hsup] at hfail ⊢
      simp at hfail ⊢
    · unfold pushSubscribe at *
      rw [hv] at hfail ⊢
      split_ifs at hfail ⊢ <;> simp_all
  · intro htoast
    have hnf := pushSubscribe_ne_ok_false w.push env
    unfold handlePushSubscribe at htoast ⊢
    by_cases h1 : ¬ w.simple.isSupported
    · rw [if_pos h1]
    · rw [if_neg h1] at htoast ⊢
      by_cases h2 : env.currentPermission = .denied
      · rw [if_pos h2]
      · rw [if_neg h2] at htoast ⊢
        rcases hps : pushSubscribe w.push env with ⟨r, push1, cs⟩
        rw [hps] at htoast
        rcases r with e1 | b
        · dsimp only at htoast ⊢
          by_cases hen : (simpleEnable w.simple env).1 = true
          · rw [if_pos hen] at htoast
            simp at htoast
          · rw [if_neg hen]
        · cases b
          · exact absurd (by rw [hps]) hnf
          · simp at htoast

/-- C6 witness: a backend-rejected subscribe with a VAPID key resets the
manager, and a totally unsupported world rolls the toggles back to false when
the handler surfaces the error. -/
theorem subscribe_failure_rollback_witness :
    (pushSubscribe
        { isSupported := true, vapidPublicKey := some "k", isSubscribed := true,
          subscription := none }
        { currentPermission := .default, requestResult := .granted, pushManagerOk := true,
          backendOk := false,
          browserSub := { endpoint := "e", p256dh := "p", auth := "a" } }).2.1.isSubscribed
      = false ∧
    (pushSubscribe
        { isSupported := true, vapidPublicKey := some "k", isSubscribed := true,
          subscription := none }
        { currentPermission := .default, requestResult := .granted, pushManagerOk := true,
          backendOk := false,
          browserSub := { endpoint := "e", p256dh := "p", auth := "a" } }).2.1.subscription
      = none :=
  (subscribe_failure_rollback
    { isSupported := true, vapidPublicKey := some "k", isSubscribed := true,
      subscription := none }
    { currentPermission := .default, requestResult := .granted, pushManagerOk := true,
      backendOk := false, browserSub := { endpoint := "e", p256dh := "p", auth := "a" } }
    { push := { isSupported := true, vapidPublicKey := some "k", isSubscribed := false,
                subscription := none },
      simple := { isSupported := true, isEnabled := false },
      ui := { pushEnabled := false, pushSubscribed := false }, calls := [], toast := none }
    .serverRejected rfl).1 rfl rfl

/-- C4 counterexample: with no VAPID key configured and permission granted,
subscribe succeeds with no endpoint registration, but the fallback channel's
isEnabled flag stays false - the fallback enable path only runs when
subscribe throws, and here it returned success. -/
theorem no_vapid_subscribe_leaves_fallback_disabled :
    (pushSubscribe
        { isSupported := true, vapidPublicKey := none, isSubscribed := false,
          subscription := none }
        { currentPermission := .default, requestResult := .granted, pushManagerOk := true,
          backendOk := true,
          browserSub := { endpoint := "e", p256dh := "p", auth := "a" } }).1 = .ok true ∧
    (handlePushSubscribe
        { push := { isSupported := true, vapidPublicKey := none, isSubscribed := false,
                    subscription := none },
          simple := { isSupported := true, isEnabled := false },
          ui := { pushEnabled := false, pushSubscribed := false }, calls := [], toast := none }
        { currentPermission := .default, requestResult := .granted, pushManagerOk := true,
          backendOk := true,
          browserSub := { endpoint := "e", p256dh := "p", auth := "a" } }).calls = [] ∧
    (handlePushSubscribe
        { push := { isSupported := true, vapidPublicKey := none, isSubscribed := false,
                    subscription := none },
          simple := { isSupported := true, isEnabled := false },
          ui := { pushEnabled := false, pushSubscribed := false }, calls := [], toast := none }
        { currentPermission := .default, requestResult := .granted, pushManagerOk := true,
          backendOk := true,
          browserSub := { endpoint := "e", p256dh := "p", auth := "a" } }).simple.isEnabled
      = false := by
  refine ⟨rfl, rfl, rfl⟩

/-- C4 amended: with no VAPID key configured and a granted permission
request, subscribe succeeds as a permission-only subscription - it sets the
manager's isSubscribed flag, registers no push endpoint with the backend,
and through the dialog handler turns the optimistic toggles on - while the
fallback channel's isEnabled flag is left unchanged (the fallback enable
path runs only when subscribe throws). -/
theorem no_vapid_subscribe_spec (w : World) (env : PushEnv)
    (hsup : w.push.isSupported = true) (hv : w.push.vapidPublicKey = none)
    (hreq : env.requestResult = .granted) :
    (pushSubscribe w.push env).1 = .ok true ∧
    (pushSubscribe w.push env).2.2 = [] ∧
    (pushSubscribe w.push env).2.1.isSubscribed = true ∧
    (w.simple.isSupported = true → env.currentPermission ≠ .denied →
      (handlePushSubscribe w env).simple.isEnabled = w.simple.isEnabled ∧
        (handlePushSubscribe w env).ui = { pushEnabled := true, pushSubscribed := true } ∧
        (handlePushSubscribe w env).calls = w.calls) := by
  have hsub : pushSubscribe w.push env =
      (.ok true, { w.push with isSubscribed := true }, []) := by
    unfold pushSubscribe
    simp [hsup, hv, hreq]
  refine ⟨by rw [hsub], by rw [hsub], by rw [hsub], ?_⟩
  intro hss hperm
  have hworld : handlePushSubscribe w env =
      { w with push := { w.push with isSubscribed := true }, calls := w.calls ++ [],
               ui := { pushEnabled := true, pushSubscribed := true },
               toast := some .success } := by
    unfold handlePushSubscribe
    rw [if_neg (by simp [hss]), if_neg hperm, hsub]
    rfl
  rw [hworld]
  exact ⟨rfl, rfl, by simp⟩

/-- C4 witness: the amended statement evaluated at a concrete supported,
key-less world with a granted permission request. -/
theorem no_vapid_subscribe_spec_witness :
    (pushSubscribe
        { isSupported := true, vapidPublicKey := none, isSubscribed := false,
          subscription := none }
        { currentPermission := .default, requestResult := .granted, pushManagerOk := false,
          backendOk := false,
          browserSub := { endpoint := "e", p256dh := "p", auth := "a" } }).1 = .ok true ∧
    (pushSubscribe
        { isSupported := true, vapidPublicKey := none, isSubscribed := false,
          subscription := none }
        { currentPermission := .default, requestResult := .granted, pushManagerOk := false,
          backendOk := false,
          browserSub := { endpoint := "e", p256dh := "p", auth := "a" } }).2.2 = [] :=
  ⟨(no_vapid_subscribe_spec
      { push := { isSupported := true, vapidPublicKey := none, isSubscribed := false,
                  subscription := none },
        simple := { isSupported := true, isEnabled := false },
        ui := { pushEnabled := false, pushSubscribed := false }, calls := [], toast := none }
      { currentPermission := .default, requestResult := .granted, pushManagerOk := false,
        backendOk := false, browserSub := { endpoint := "e", p256dh := "p", auth := "a" } }
      rfl rfl rfl).1,
   (no_vapid_subscribe_spec
      { push := { isSupported := true, vapidPublicKey := none, isSubscribed := false,
                  subscription := none },
        simple := { isSupported := true, isEnabled := false },
        ui := { pushEnabled := false, pushSubscribed := false }, calls := [], toast := none }
      { currentPermission := .default, requestResult := .granted, pushManagerOk := false,
        backendOk := false, browserSub := { endpoint := "e", p256dh := "p", auth := "a" } }
      rfl rfl rfl).2.1⟩

/-! ## ErrorClassifier: full tracking flow (src/lib/vendorErrorTracker.ts)

`trackError` accepts either a plain JavaScript `Error` (name, message,
stack) or an already-typed `TrackedError`; the remaining helpers compute the
notification payload fields.  Effects are modelled as the outcome of the call
(the classifier is specified never to throw) together with the list of
notification-store calls issued. -/

/-- Input to `trackError`: the TypeScript union `Error | TrackedError`. -/
inductive ErrInput where
  | jsError (name : Option String) (message : String) (stack : Option String)
  | tracked (t : TrackedError)
deriving DecidableEq, Repr

/-- Message of either error shape. -/
def ErrInput.message : ErrInput → String
  | .jsError _ m _ => m
  | .tracked t => t.message

/-- Stack of either error shape. -/
def ErrInput.stack : ErrInput → Option String
  | .jsError _ _ s => s
  | .tracked t => t.stack

/-- Embedding of `getErrorType` (lines 234-260): a `TrackedError` keeps its
type; otherwise the type is inferred, first match wins, from the lowercased
error name and message. -/
def getErrorType : ErrInput → String
  | .tracked t => t.type
  | .jsError name message _ =>
      let errorName := (name.getD "").toLower
      let errorMessage := message.toLower
      if strIncludes errorName "network" || strIncludes errorMessage "fetch"
          || strIncludes errorMessage "network" then "NETWORK_ERROR"
      else if strIncludes errorName "auth" || strIncludes errorMessage "unauthorized"
          || strIncludes errorMessage "forbidden" then "AUTHENTICATION_ERROR"
      else if strIncludes errorName "validation" || strIncludes errorMessage "invalid" then
        "VALIDATION_ERROR"
      else if strIncludes errorName "timeout" || strIncludes errorMessage "timeout" then
        "TIMEOUT_ERROR"
      else "UNKNOWN_ERROR"

/-- Word characters of the regular expression class backslash-w. -/
def isWordChar (c : Char) : Bool :=
  c.isAlphanum || c = '_'

/-- Separator characters of the class colon-or-whitespace used by the code
extraction pattern. -/
def isCodeSep (c : Char) : Bool :=
  c = ':' || c.isWhitespace

/-- Match the tail of the code-extraction pattern at the current position:
one or more separators followed by one or more word characters, captured. -/
def matchCodeTail (l : List Char) : Option (List Char) :=
  let seps := l.takeWhile isCodeSep
  if seps.isEmpty then none
  else
    let word := (l.dropWhile isCodeSep).takeWhile isWordChar
    if word.isEmpty then none else some word

/-- Scan for the case-insensitive pattern of the word code followed by one or
more separators and a captured word, modelling the regex of `getErrorCode`. -/
def scanCode : List Char → Option (List Char)
  | [] => none
  | c1 :: rest =>
      match rest with
      | c2 :: c3 :: c4 :: tail =>
          if c1.toLower = 'c' ∧ c2.toLower = 'o' ∧ c3.toLower = 'd' ∧ c4.toLower = 'e' then
            match matchCodeTail tail with
            | some w => some w
            | none => scanCode rest
          else scanCode rest
      | _ => none

/-- Embedding of `getErrorCode` (lines 265-278): a `TrackedError` keeps its
code; otherwise the first code-colon-word occurrence in the message is
extracted, if any. -/
def getErrorCode : ErrInput → Option ErrCode
  | .tracked t => t.code
  | .jsError _ message _ => (scanCode message.data).map fun w => .str (String.mk w)

/-- Embedding of the operation-to-notification-type table of
`getNotificationType` (lines 283-306). -/
def operationTypeMap : List (String × String) :=
  [("claim_order", "order_claim_error"),
   ("bulk_claim_orders", "order_claim_error"),
   ("reverse_order", "reverse_order_failure"),
   ("bulk_reverse_orders", "reverse_order_failure"),
   ("mark_ready", "order_processing_error"),
   ("bulk_mark_ready", "order_processing_error"),
   ("download_label", "label_download_error"),
   ("bulk_download_labels", "label_download_error"),
   ("fetch_orders", "data_fetch_error"),
   ("refresh_orders", "data_refresh_error"),
   ("fetch_grouped_orders", "data_fetch_error"),
   ("fetch_payments", "data_fetch_error"),
   ("fetch_settlements", "data_fetch_error"),
   ("fetch_transactions", "data_fetch_error"),
   ("create_settlement_request", "settlement_error"),
   ("upload_payment_proof", "settlement_error"),
   ("fetch_address", "address_error"),
   ("update_address", "address_error")]

/-- Embedding of `getNotificationType`: table lookup with a fixed default. -/
def getNotificationType (operation : String) (_error : TrackedError) : String :=
  match operationTypeMap.lookup operation with
  | some t => t
  | none => "vendor_operation_error"

/-- Embedding of the display-name table of `getTitle` (lines 363-389). -/
def operationNamesTitle : List (String × String) :=
  [("claim_order", "Order Claim"),
   ("bulk_claim_orders", "Bulk Order Claim"),
   ("reverse_order", "Order Reverse"),
   ("bulk_reverse_orders", "Bulk Order Reverse"),
   ("mark_ready", "Mark Order Ready"),
   ("bulk_mark_ready", "Bulk Mark Orders Ready"),
   ("download_label", "Label Download"),
   ("bulk_download_labels", "Bulk Label Download"),
   ("fetch_orders", "Orders Fetch"),
   ("refresh_orders", "Orders Refresh"),
   ("fetch_grouped_orders", "Grouped Orders Fetch"),
   ("fetch_payments", "Payments Fetch"),
   ("fetch_settlements", "Settlements Fetch"),
   ("fetch_transactions", "Transactions Fetch"),
   ("create_settlement_request", "Settlement Request"),
   ("upload_payment_proof", "Payment Proof Upload"),
   ("fetch_address", "Address Fetch"),
   ("update_address", "Address Update")]

/-- Embedding of `getTitle`: display name (or the raw operation) plus a
Failed suffix and the correlated order id, when present. -/
def getTitle (operation : String) (_error : TrackedError) (context : ErrorContext) : String :=
  let operationName := (operationNamesTitle.lookup operation).getD operation
  let orderInfo := match context.orderId with
    | some oid => " - Order " ++ oid
    | none => ""
  operationName ++ " Failed" ++ orderInfo

/-- Embedding of the display-name table of `getMessage` (lines 394-427). -/
def operationNamesMessage : List (String × String) :=
  [("claim_order", "order claim"),
   ("bulk_claim_orders", "bulk order claim"),
   ("reverse_order", "order reverse"),
   ("bulk_reverse_orders", "bulk order reverse"),
   ("mark_ready", "mark order ready"),
   ("bulk_mark_ready", "bulk mark orders ready"),
   ("download_label", "label download"),
   ("bulk_download_labels", "bulk label download"),
   ("fetch_orders", "orders fetch"),
   ("refresh_orders", "orders refresh"),
   ("fetch_grouped_orders", "grouped orders fetch"),
   ("fetch_payments", "payments fetch"),
   ("fetch_settlements", "settlements fetch"),
   ("fetch_transactions", "transactions fetch"),
   ("create_settlement_request", "settlement request creation"),
   ("upload_payment_proof", "payment proof upload"),
   ("fetch_address", "address fetch"),
   ("update_address", "address update")]

/-- Embedding of `getMessage`: templated sentence always appending the raw
error text and, when present, the correlated order id. -/
def getMessage (operation : String) (error : TrackedError) (context : ErrorContext) : String :=
  let operationName := (operationNamesMessage.lookup operation).getD operation
  let base := "Vendor encountered an error during " ++ operationName
  let withOrder := match context.orderId with
    | some oid => base ++ " for order " ++ oid
    | none => base
  withOrder ++ ". Error: " ++ error.message

/-- Mutable fields of the `VendorErrorTracker` singleton. -/
structure TrackerState where
  vendorId : Option String
  vendorName : Option String
  isEnabled : Bool
deriving DecidableEq, Repr

/-- Browser inputs and backend behaviour consumed by one tracking call. -/
structure TrackerEnv where
  createNotificationOk : Bool
  userAgent : String
  url : String
  timestamp : String
deriving DecidableEq, Repr

/-- The notification-create call issued to the external store, with the
payload fields the classifier computes. -/
structure CreateNotifCall where
  type : String
  severity : String
  title : String
  message : String
  order_id : Option String
  vendor_name : Option String
  metadata_operation : String
  metadata_error_type : String
  metadata_error_code : Option ErrCode
deriving DecidableEq, Repr

/-- Embedding of `trackError` (lines 74-131): a silent no-op when tracking
is disabled or the vendor identity is unknown; otherwise it issues exactly
one notification-create call, and a failure of that call is caught and
logged, never rethrown, so the outcome is ok on every path. -/
def trackError (st : TrackerState) (env : TrackerEnv) (operation : String)
    (error : ErrInput) (context : ErrorContext) :
    Except Unit Unit × List CreateNotifCall :=
  if ¬ st.isEnabled ∨ st.vendorId = none ∨ st.vendorName = none then (.ok (), [])
  else
    let errorData : TrackedError :=
      { type := getErrorType error, code := getErrorCode error,
        message := error.message, stack := error.stack }
    let call : CreateNotifCall :=
      { type := getNotificationType operation errorData,
        severity := getSeverity operation errorData,
        title := getTitle operation errorData context,
        message := getMessage operation errorData context,
        order_id := context.orderId,
        vendor_name := st.vendorName,
        metadata_operation := operation,
        metadata_error_type := errorData.type,
        metadata_error_code := errorData.code }
    let attempt : Except Unit Unit := if env.createNotificationOk then .ok () else .error ()
    match attempt with
    | .ok _ => (.ok (), [call])
    | .error _ => (.ok (), [call])

/-- The caught business error of a tracked API call, with the fields
`trackApiError` reads from it. -/
structure JsAny where
  message : Option String
  stack : Option String
  code : Option ErrCode
  status : Option Int
  statusCode : Option Int
deriving DecidableEq, Repr

/-- Embedding of `trackApiError` (lines 136-154): wraps the caught value in
an API_ERROR TrackedError and delegates to `trackError` with the status code
propagated into the context. -/
def trackApiError (st : TrackerState) (env : TrackerEnv) (operation : String)
    (error : JsAny) (context : ErrorContext) :
    Except Unit Unit × List CreateNotifCall :=
  let trackedError : TrackedError :=
    { type := "API_ERROR",
      code := (error.code.orElse fun _ => (error.status.map .num).orElse fun _ =>
        error.statusCode.map .num),
      message := error.message.getD "API request failed",
      stack := error.stack }
  trackError st env operation (.tracked trackedError)
    { context with endpoint := context.endpoint, method := context.method,
                   statusCode := error.status.orElse fun _ => error.statusCode }

/-- Embedding of `createTrackedApiCall` (lines 432-445) applied to the
behaviour of the wrapped operation at one argument list, given as the
`Except` value the operation resolves or rejects with: a resolved value is
returned unchanged; a rejection is first tracked via `trackApiError` and
then rethrown unchanged. -/
def trackedCall {R : Type} (st : TrackerState) (env : TrackerEnv) (operation : String)
    (context : ErrorContext) (result : Except JsAny R) :
    Except JsAny R × List CreateNotifCall :=
  match result with
  | .ok r => (.ok r, [])
  | .error e => (.error e, (trackApiError st env operation e context).2)

/-- C7: the tracked wrapper returns the wrapped operation's value unchanged
and rethrows the exact original rejection; the classification step itself
never throws (its outcome is ok for every state and environment, including
a failing notification-store call), and it issues no call at all when
tracking is disabled or the vendor identity is unknown. -/
theorem trackedCall_spec {R : Type} (st : TrackerState) (env : TrackerEnv)
    (operation : String) (context : ErrorContext) (result : Except JsAny R)
    (error : ErrInput) :
    (trackedCall st env operation context result).1 = result ∧
    (trackError st env operation error context).1 = .ok () ∧
    (¬ st.isEnabled ∨ st.vendorId = none ∨ st.vendorName = none →
      (trackError st env operation error context).2 = []) := by
  refine ⟨?_, ?_, ?_⟩
  · cases result <;> rfl
  · unfold trackError
    split_ifs <;> rfl
  · intro h
    unfold trackError
    rw [if_pos h]

/-- C7 witness: a concrete rejected call is rethrown unchanged, and a
disabled tracker issues no store call. -/
theorem trackedCall_spec_witness :
    (trackedCall (R := Nat)
        { vendorId := none, vendorName := none, isEnabled := false }
        { createNotificationOk := true, userAgent := "ua", url := "u", timestamp := "t" }
        "claim_order" {}
        (.error { message := some "boom", stack := none, code := none, status := none,
                  statusCode := none })).1
      = .error { message := some "boom", stack := none, code := none, status := none,
                 statusCode := none } ∧
    (trackError
        { vendorId := none, vendorName := none, isEnabled := false }
        { createNotificationOk := true, userAgent := "ua", url := "u", timestamp := "t" }
        "claim_order" (.jsError none "boom" none) {}).2 = [] := by
  refine ⟨?_, ?_⟩
  · exact (trackedCall_spec
      { vendorId := none, vendorName := none, isEnabled := false }
      { createNotificationOk := true, userAgent := "ua", url := "u", timestamp := "t" }
      "claim_order" {}
      (.error { message := some "boom", stack := none, code := none, status := none,
                statusCode := none })
      (.jsError none "boom" none)).1
  · exact (trackedCall_spec (R := Nat)
      { vendorId := none, vendorName := none, isEnabled := false }
      { createNotificationOk := true, userAgent := "ua", url := "u", timestamp := "t" }
      "claim_order" {}
      (.error { message := some "boom", stack := none, code := none, status := none,
                statusCode := none })
      (.jsError none "boom" none)).2.2 (by simp)

/-! ## TriagePresenter: the notification dialog (src/unnamed/part_000)

The dialog's component state relevant to the triage claims: the external
store contents, the resolution-notes buffer, the detail-view selection, the
pagination page and filters, and traces of the store calls and fetches it
issues. -/

/-- Model of the JavaScript string trim: drop leading and trailing
whitespace. -/
def jsTrim (s : String) : String :=
  String.mk ((s.data.dropWhile Char.isWhitespace).reverse.dropWhile Char.isWhitespace).reverse

/-- Notification status enum of the data model. -/
inductive NStatus where
  | pending
  | in_progress
  | resolved
  | dismissed
deriving DecidableEq, Repr

/-- The store-side fields of one notification that triage touches. -/
structure Notif where
  id : Nat
  status : NStatus
  resolution_notes : Option String
deriving DecidableEq, Repr

/-- Store and collaborator calls the dialog can issue. -/
inductive StoreCall where
  | resolveCall (id : Nat) (notes : String)
  | dismissCall (id : Nat) (reason : String)
  | listCall
deriving DecidableEq, Repr

/-- Dialog component state for the resolve flow. -/
structure TriageState where
  store : List Notif
  resolutionNotes : String
  selectedNotification : Option Nat
  statsRefreshed : Bool
  calls : List StoreCall
deriving DecidableEq, Repr

/-- Modelled from the spec: the external notification store's
`resolveNotification` operation (the store itself is a collaborator outside
src); per the data model, a successful resolve sets the target's status to
resolved and records the resolution notes. -/
def storeResolve (store : List Notif) (nid : Nat) (notes : String) : List Notif :=
  store.map fun n =>
    if n.id = nid then { n with status := .resolved, resolution_notes := some notes } else n

/-- Embedding of the dialog's Resolve control (component lines 864-881,
`disabled` unless the trimmed notes buffer is non-empty) composed with
`handleResolveNotification` (lines 357-376): a click with empty or
whitespace-only notes is a no-op because the button is disabled; otherwise
the handler issues the store resolve call and, on success, clears the notes
buffer, closes the detail view, refetches the list and signals the external
stats collaborator; a store failure only surfaces a toast, leaving the
component state otherwise unchanged. -/
def clickResolve (st : TriageState) (resolveOk : Bool) (nid : Nat) : TriageState :=
  if jsTrim st.resolutionNotes = "" then st
  else if resolveOk then
    { store := storeResolve st.store nid st.resolutionNotes,
      resolutionNotes := "",
      selectedNotification := none,
      statsRefreshed := true,
      calls := st.calls ++ [.resolveCall nid st.resolutionNotes, .listCall] }
  else
    { st with calls := st.calls ++ [.resolveCall nid st.resolutionNotes] }

/-- C3: resolving with empty or whitespace-only notes is rejected as a
no-op - no store or collaborator call is issued and no state changes; with
non-empty notes and a successful store call, the target notification's
status becomes resolved, the notes buffer is cleared, the detail view is
closed, the stats collaborator is signalled and exactly the resolve and
refetch calls are issued. -/
theorem clickResolve_spec (st : TriageState) (nid : Nat) :
    (jsTrim st.resolutionNotes = "" → ∀ resolveOk, clickResolve st resolveOk nid = st) ∧
    (jsTrim st.resolutionNotes ≠ "" →
      (clickResolve st true nid).resolutionNotes = "" ∧
      (clickResolve st true nid).selectedNotification = none ∧
      (clickResolve st true nid).statsRefreshed = true ∧
      (clickResolve st true nid).calls =
        st.calls ++ [.resolveCall nid st.resolutionNotes, .listCall] ∧
      ∀ n ∈ (clickResolve st true nid).store, n.id = nid → n.status = .resolved) := by
  constructor
  · intro h resolveOk
    unfold clickResolve
    rw [if_pos h]
  · intro h
    unfold clickResolve
    rw [if_neg h, if_pos rfl]
    refine ⟨rfl, rfl, rfl, rfl, ?_⟩
    intro n hn hid
    unfold storeResolve at hn
    rcases List.mem_map.mp hn with ⟨m, hm, hap⟩
    by_cases hmid : m.id = nid
    · rw [if_pos hmid] at hap
      rw [← hap]
    · rw [if_neg hmid] at hap
      rw [← hap] at hid
      exact absurd hid hmid

/-- C3 witness: a whitespace-only notes buffer makes the resolve click a
no-op on a concrete state, and a concrete non-empty resolve clears the
buffer. -/
theorem clickResolve_spec_witness :
    clickResolve
        { store := [{ id := 5, status := .pending, resolution_notes := none }],
          resolutionNotes := "  ", selectedNotification := some 5,
          statsRefreshed := false, calls := [] } true 5
      = { store := [{ id := 5, status := .pending, resolution_notes := none }],
          resolutionNotes := "  ", selectedNotification := some 5,
          statsRefreshed := false, calls := [] } ∧
    (clickResolve
        { store := [{ id := 5, status := .pending, resolution_notes := none }],
          resolutionNotes := "done", selectedNotification := some 5,
          statsRefreshed := false, calls := [] } true 5).resolutionNotes = "" :=
  ⟨(clickResolve_spec
      { store := [{ id := 5, status := .pending, resolution_notes := none }],
        resolutionNotes := "  ", selectedNotification := some 5,
        statsRefreshed := false, calls := [] } 5).1 (by decide) true,
   ((clickResolve_spec
      { store := [{ id := 5, status := .pending, resolution_notes := none }],
        resolutionNotes := "done", selectedNotification := some 5,
        statsRefreshed := false, calls := [] } 5).2 (by decide)).1⟩

/-! ## TriagePresenter: filters and pagination (claim C9) -/

/-- The dialog's filter record (component lines 87-92). -/
structure Filters where
  status : String
  type : String
  severity : String
  search : String
deriving DecidableEq, Repr

/-- Dialog state for the list/pagination flow, with the trace of fetches
issued as page-filters pairs. -/
structure ListState where
  isOpen : Bool
  page : Nat
  filters : Filters
  fetches : List (Nat × Filters)
deriving DecidableEq, Repr

/-- Embedding of a filter change in the notification dialog (component
lines 107-139 and 443-458).  React runs the two effects in declaration
order after the commit: the fetch effect is declared first and depends on
the `fetchNotifications` callback identity, which changes with `filters`,
so it runs with the new filters and the still-current page; the reset
effect declared second then sets the page to 1, which - only when the page
actually changes - re-renders and runs the fetch effect again with page 1.
While the dialog is closed the fetch effect takes its else branch and no
fetch is issued. -/
def changeFilters (st : ListState) (f : Filters) : ListState :=
  if st.isOpen then
    if st.page = 1 then
      { st with filters := f, fetches := st.fetches ++ [(st.page, f)] }
    else
      { st with filters := f, page := 1,
                fetches := st.fetches ++ [(st.page, f), (1, f)] }
  else
    { st with filters := f, page := 1 }

/-- C9 counterexample: changing a filter while on page 3 issues its next
fetch with page 3 and the new filters - the page-reset effect only runs
after the fetch effect has already fired - so the page is not reset to 1
before the next fetch; the fetch with page 1 follows afterwards. -/
theorem filter_change_fetches_stale_page_first :
    (changeFilters
        { isOpen := true, page := 3,
          filters := { status := "all", type := "all", severity := "all", search := "" },
          fetches := [] }
        { status := "pending", type := "all", severity := "all", search := "" }).fetches
      = [(3, { status := "pending", type := "all", severity := "all", search := "" }),
         (1, { status := "pending", type := "all", severity := "all", search := "" })] ∧
    (3 : Nat) ≠ 1 := by
  exact ⟨rfl, by decide⟩

/-- C9 amended: any filter change while the dialog is open does reset the
page to 1 - the component settles at page 1 and the last fetch issued for
the change uses page 1 with the new filters - but when the current page is
not 1 an initial fetch with the old page and the new filters is issued
before the reset takes effect. -/
theorem changeFilters_spec (st : ListState) (f : Filters) (hopen : st.isOpen = true) :
    (changeFilters st f).page = 1 ∧
    (changeFilters st f).filters = f ∧
    (st.page = 1 → (changeFilters st f).fetches = st.fetches ++ [(1, f)]) ∧
    (st.page ≠ 1 → (changeFilters st f).fetches = st.fetches ++ [(st.page, f), (1, f)]) := by
  by_cases hp : st.page = 1
  · simp [changeFilters, hopen, hp]
  · simp [changeFilters, hopen, hp]

/-- C9 witness: the amended statement evaluated at a concrete open dialog on
page 3. -/
theorem changeFilters_spec_witness :
    (changeFilters
        { isOpen := true, page := 3,
          filters := { status := "all", type := "all", severity := "all", search := "" },
          fetches := [] }
        { status := "all", type := "all", severity := "all", search := "x" }).page = 1 ∧
    (changeFilters
        { isOpen := true, page := 3,
          filters := { status := "all", type := "all", severity := "all", search := "" },
          fetches := [] }
        { status := "all", type := "all", severity := "all", search := "x" }).fetches
      = [(3, { status := "all", type := "all", severity := "all", search := "x" }),
         (1, { status := "all", type := "all", severity := "all", search := "x" })] :=
  ⟨(changeFilters_spec
      { isOpen := true, page := 3,
        filters := { status := "all", type := "all", severity := "all", search := "" },
        fetches := [] }
      { status := "all", type := "all", severity := "all", search := "x" } rfl).1,
   (changeFilters_spec
      { isOpen := true, page := 3,
        filters := { status := "all", type := "all", severity := "all", search := "" },
        fetches := [] }
      { status := "all", type := "all", severity := "all", search := "x" } rfl).2.2.2
     (by decide)⟩

end Clamio
